import Mathlib

/-!
Verification development for the weather-query web application.

The whole behaviour under study lives in one HTTP route handler
(src/app/api/weather/route.ts): a POST handler that validates the query,
calls a language-understanding service, optionally executes the weather
tool (fetchWeatherData) against the weather provider, optionally makes a
second structuring call, and returns one of a fixed set of JSON shapes.

The embedding below is a shallow, pure model of that handler. External
services are modelled as inputs: the reply the language service would
give, the reply the weather provider would give, and the outcome of the
second structuring call are all fields of an environment value threaded
into the handler. Numbers are rationals, JSON string payloads are Lean
strings, and the count of outbound calls made is returned alongside the
HTTP response so that claims about which calls happen are statable.
-/

namespace WeatherApp

/-- Raw current-conditions block of the provider JSON reply, field for
field the metrics the route requests from the provider. -/
structure CurrentWeather where
  temperature_2m : ℚ
  relative_humidity_2m : ℚ
  apparent_temperature : ℚ
  precipitation : ℚ
  weather_code : ℤ
  cloud_cover : ℚ
  pressure_msl : ℚ
  surface_pressure : ℚ
  wind_speed_10m : ℚ
  wind_direction_10m : ℚ
  visibility : ℚ
deriving DecidableEq

/-- The weather provider reply as the route sees it: the HTTP ok flag,
the optional reason field read on failure, and the current block read on
success. -/
structure ProviderResponse where
  ok : Bool
  reason : Option String
  current : CurrentWeather
deriving DecidableEq

/-- Parsed arguments of a get_weather_data tool call. The four unit
fields are optional: the destructuring in fetchWeatherData supplies a
default when one is absent. Units are plain strings, as in the source,
which compares them with string equality. -/
structure WeatherParams where
  latitude : ℚ
  longitude : ℚ
  location_name : String
  temperature_unit : Option String
  wind_unit : Option String
  pressure_unit : Option String
  visibility_unit : Option String
deriving DecidableEq

/-- The canonical normalized weather snapshot assembled by
fetchWeatherData (the object literal at the end of the function). -/
structure WeatherReading where
  location : String
  temperature : ℚ
  temperature_unit : String
  condition : String
  humidity : ℚ
  wind_speed : ℚ
  wind_unit : String
  wind_direction : ℚ
  pressure : ℚ
  pressure_unit : String
  visibility : ℚ
  visibility_unit : String
  uv_index : ℚ
  feels_like : ℚ
  description : String
  timestamp : String
deriving DecidableEq

/-- The weatherConditions lookup table of the route, key for key and
string for string. -/
def weatherConditions : List (ℤ × String) :=
  [(0, "clear sky"),
   (1, "mainly clear"),
   (2, "partly cloudy"),
   (3, "overcast"),
   (45, "fog"),
   (48, "depositing rime fog"),
   (51, "light drizzle"),
   (53, "moderate drizzle"),
   (55, "dense drizzle"),
   (56, "light freezing drizzle"),
   (57, "dense freezing drizzle"),
   (61, "slight rain"),
   (63, "moderate rain"),
   (65, "heavy rain"),
   (66, "light freezing rain"),
   (67, "heavy freezing rain"),
   (71, "slight snow fall"),
   (73, "moderate snow fall"),
   (75, "heavy snow fall"),
   (77, "snow grains"),
   (80, "slight rain showers"),
   (81, "moderate rain showers"),
   (82, "violent rain showers"),
   (85, "slight snow showers"),
   (86, "heavy snow showers"),
   (95, "thunderstorm"),
   (96, "thunderstorm with slight hail"),
   (99, "thunderstorm with heavy hail")]

/-- The keys of the weatherConditions table. -/
def tableCodes : List ℤ := weatherConditions.map Prod.fst

/-- Condition lookup, modelling the JS expression
weatherConditions[code] or-else "unknown": a missing entry falls back to
"unknown", and because the JS fallback tests truthiness an empty table
string would fall back as well. -/
def codeToCondition (code : ℤ) : String :=
  match weatherConditions.lookup code with
  | some s => if s = "" then "unknown" else s
  | none => "unknown"

/-- Pressure conversion of fetchWeatherData: the provider yields hPa,
and a request for mb multiplies by 0.01 (the factor written in the
source, reproduced as is). -/
def convertPressure (p : ℚ) (unit : String) : ℚ :=
  if unit = "mb" then p * 0.01 else p

/-- Visibility conversion of fetchWeatherData: the provider value is
multiplied by 0.621371 when miles are requested. -/
def convertVisibility (v : ℚ) (unit : String) : ℚ :=
  if unit = "miles" then v * 0.621371 else v

/-- The JS fallback on data.reason: a missing or empty reason becomes
"Unknown error". -/
def reasonOrUnknown (r : Option String) : String :=
  match r with
  | some s => if s = "" then "Unknown error" else s
  | none => "Unknown error"

/-- Pure model of fetchWeatherData. The provider reply is an input. On a
non-ok reply the function throws; the catch block rewraps the message,
so the surfaced error string is the composition of both messages. On an
ok reply it assembles the WeatherReading exactly as the object literal
does, with the defaulted units from the destructuring. The timestamp is
the current instant, passed in as the parameter now. -/
def fetchWeatherData (params : WeatherParams) (resp : ProviderResponse)
    (now : String) : Except String WeatherReading :=
  let temperature_unit := params.temperature_unit.getD "celsius"
  let wind_unit := params.wind_unit.getD "kmh"
  let pressure_unit := params.pressure_unit.getD "hPa"
  let visibility_unit := params.visibility_unit.getD "km"
  if resp.ok then
    let current := resp.current
    let condition := codeToCondition current.weather_code
    Except.ok
      { location := params.location_name
        temperature := current.temperature_2m
        temperature_unit := temperature_unit
        condition := condition
        humidity := current.relative_humidity_2m
        wind_speed := current.wind_speed_10m
        wind_unit := wind_unit
        wind_direction := current.wind_direction_10m
        pressure := convertPressure current.pressure_msl pressure_unit
        pressure_unit := pressure_unit
        visibility := convertVisibility current.visibility visibility_unit
        visibility_unit := visibility_unit
        uv_index := 0
        feels_like := current.apparent_temperature
        description := "Current weather in " ++ params.location_name ++ ": " ++
          condition ++ " with temperature of " ++ toString current.temperature_2m ++
          "°" ++ (if temperature_unit = "celsius" then "C" else "F")
        timestamp := now }
  else
    Except.error ("Failed to fetch weather data: " ++ "Weather API error: " ++
      reasonOrUnknown resp.reason)

/-- One item of the language-service reply output array: its type tag,
its tool name, and (for a function call) its already parsed arguments. -/
structure OutputItem where
  type : String
  name : String
  arguments : WeatherParams
deriving DecidableEq

/-- The reply of the first language-service call: the output array and
the optional output_text field. -/
structure LLMResponse where
  output : List OutputItem
  output_text : Option String
deriving DecidableEq

/-- The weather_data object of the strict schema of the second call. -/
structure StructuredWeatherData where
  location : String
  temperature : ℚ
  temperature_unit : String
  condition : String
  humidity : ℚ
  wind_speed : ℚ
  wind_unit : String
  wind_direction : ℚ
  pressure : ℚ
  pressure_unit : String
  visibility : ℚ
  visibility_unit : String
  cloud_cover : ℚ
  precipitation : ℚ
  apparent_temperature : ℚ
deriving DecidableEq

/-- The schema-validated payload of the second language-service call. -/
structure StructuredPayload where
  weather_data : StructuredWeatherData
  summary : String
  recommendations : List String
  additional_info : String
deriving DecidableEq

/-- External-world inputs of one request: the first language-service
reply, the weather provider reply, the outcome of the second structuring
call (an error value models a thrown schema-validation failure carrying
its message), and the current instant. -/
structure Env where
  llm : LLMResponse
  provider : ProviderResponse
  structured : Except String StructuredPayload
  now : String

/-- Count of outbound calls made while handling one request. -/
structure Effects where
  llmCalls : ℕ
  weatherCalls : ℕ
deriving DecidableEq

/-- The JSON shapes the handler can return; the constructor fixes the
HTTP status (badRequest is 400, serverError is 500, the others 200). -/
inductive HttpResponse where
  | badRequest (error : String)
  | successData (data : StructuredPayload) (raw_weather : WeatherReading)
  | successMessage (message : String)
  | serverError (error : String) (details : String)
deriving DecidableEq

/-- The fixed prompt string of the direct-answer branch. -/
def fallbackMessage : String :=
  "I\x27d be happy to help with weather information. Please specify a location, for example: \x27What\x27s the weather in Paris?\x27"

/-- The message of the direct-answer branch: response.output_text
or-else the fixed prompt (JS truthiness: absent or empty text falls
back). -/
def directMessage (t : Option String) : String :=
  match t with
  | some s => if s = "" then fallbackMessage else s
  | none => fallbackMessage

/-- The test output.type is "function_call" and output.name is
"get_weather_data" applied to the first output item. -/
def isWeatherToolCall (item : OutputItem) : Bool :=
  item.type == "function_call" && item.name == "get_weather_data"

/-- Pure model of the POST handler. The request body query is an Option
(absent or present); the falsiness test of the source rejects an absent
query and the empty string. A valid query always triggers the first
language-service call; only the head of the output array is inspected;
the weather tool and the second structuring call run only on a
get_weather_data function call at the head. Both the weather fetch error
and the structuring error are caught by the same inner catch and produce
the same serverError shape. -/
def POST (query : Option String) (env : Env) : HttpResponse × Effects :=
  match query with
  | none => (HttpResponse.badRequest "Query is required", ⟨0, 0⟩)
  | some q =>
    if q = "" then (HttpResponse.badRequest "Query is required", ⟨0, 0⟩)
    else
      match env.llm.output with
      | item :: _ =>
        if isWeatherToolCall item then
          match fetchWeatherData item.arguments env.provider env.now with
          | Except.error msg =>
            (HttpResponse.serverError "Failed to fetch weather data" msg, ⟨1, 1⟩)
          | Except.ok weatherData =>
            match env.structured with
            | Except.error msg =>
              (HttpResponse.serverError "Failed to fetch weather data" msg, ⟨2, 1⟩)
            | Except.ok payload =>
              (HttpResponse.successData payload weatherData, ⟨2, 1⟩)
        else
          (HttpResponse.successMessage (directMessage env.llm.output_text), ⟨1, 0⟩)
      | [] =>
        (HttpResponse.successMessage (directMessage env.llm.output_text), ⟨1, 0⟩)

/-- Sample provider current block used by concrete witnesses. -/
def sampleCurrent : CurrentWeather :=
  { temperature_2m := 20
    relative_humidity_2m := 50
    apparent_temperature := 19
    precipitation := 0
    weather_code := 2
    cloud_cover := 40
    pressure_msl := 1013
    surface_pressure := 1010
    wind_speed_10m := 5
    wind_direction_10m := 180
    visibility := 10 }

/-- Sample successful provider reply. -/
def sampleResp : ProviderResponse :=
  { ok := true, reason := none, current := sampleCurrent }

/-- The Paris invocation of the round-trip scenario of the spec, with
the three unit preferences other than temperature omitted. -/
def parisParams : WeatherParams :=
  { latitude := 48.8566
    longitude := 2.3522
    location_name := "Paris"
    temperature_unit := some "celsius"
    wind_unit := none
    pressure_unit := none
    visibility_unit := none }

/-- Sample structured payload for environments that reach a successful
second call. -/
def samplePayload : StructuredPayload :=
  { weather_data :=
      { location := "Paris"
        temperature := 20
        temperature_unit := "celsius"
        condition := "partly cloudy"
        humidity := 50
        wind_speed := 5
        wind_unit := "kmh"
        wind_direction := 180
        pressure := 1013
        pressure_unit := "hPa"
        visibility := 10
        visibility_unit := "km"
        cloud_cover := 40
        precipitation := 0
        apparent_temperature := 19 }
    summary := "Mild and partly cloudy."
    recommendations := ["Take a light jacket."]
    additional_info := "" }

/-- A get_weather_data function-call output item with the Paris
arguments. -/
def weatherItem : OutputItem :=
  { type := "function_call", name := "get_weather_data", arguments := parisParams }

/-- A plain message output item (not a tool call). -/
def messageItem : OutputItem :=
  { type := "message", name := "", arguments := parisParams }

/-- A key absent from the key column of an association list is not
found by lookup. -/
theorem lookup_eq_none_of_not_mem (l : List (ℤ × String)) (a : ℤ)
    (h : a ∉ l.map Prod.fst) : l.lookup a = none := by
  induction l with
  | nil => rfl
  | cons p t ih =>
    obtain ⟨k, v⟩ := p
    simp only [List.map_cons, List.mem_cons, not_or] at h
    have hk : (a == k) = false := by
      simp only [beq_eq_false_iff_ne, ne_eq]
      exact h.1
    simp only [List.lookup, hk]
    exact ih h.2

/-- Claim C2: pressure conversion is linear and exact: requesting mb
multiplies the provider hPa value by 0.01, and requesting hPa is the
identity. -/
theorem C2_convertPressure_exact (p : ℚ) :
    convertPressure p "mb" = p * 0.01 ∧ convertPressure p "hPa" = p :=
  ⟨rfl, rfl⟩

/-- Claim C3: codeToCondition is total (every integer code yields a
string), every code with no table entry yields exactly "unknown", and
all 27 table codes map to their specified condition text. -/
theorem C3_codeToCondition_total :
    (∀ c : ℤ, ∃ s : String, codeToCondition c = s) ∧
    (∀ c : ℤ, c ∉ tableCodes → codeToCondition c = "unknown") ∧
    (codeToCondition 0 = "clear sky" ∧
     codeToCondition 1 = "mainly clear" ∧
     codeToCondition 2 = "partly cloudy" ∧
     codeToCondition 3 = "overcast" ∧
     codeToCondition 45 = "fog" ∧
     codeToCondition 48 = "depositing rime fog" ∧
     codeToCondition 51 = "light drizzle" ∧
     codeToCondition 53 = "moderate drizzle" ∧
     codeToCondition 55 = "dense drizzle" ∧
     codeToCondition 56 = "light freezing drizzle" ∧
     codeToCondition 57 = "dense freezing drizzle" ∧
     codeToCondition 61 = "slight rain" ∧
     codeToCondition 63 = "moderate rain" ∧
     codeToCondition 65 = "heavy rain" ∧
     codeToCondition 66 = "light freezing rain" ∧
     codeToCondition 67 = "heavy freezing rain" ∧
     codeToCondition 71 = "slight snow fall" ∧
     codeToCondition 73 = "moderate snow fall" ∧
     codeToCondition 75 = "heavy snow fall" ∧
     codeToCondition 77 = "snow grains" ∧
     codeToCondition 80 = "slight rain showers" ∧
     codeToCondition 81 = "moderate rain showers" ∧
     codeToCondition 82 = "violent rain showers" ∧
     codeToCondition 85 = "slight snow showers" ∧
     codeToCondition 86 = "heavy snow showers" ∧
     codeToCondition 95 = "thunderstorm" ∧
     codeToCondition 96 = "thunderstorm with slight hail" ∧
     codeToCondition 99 = "thunderstorm with heavy hail") := by
  refine ⟨fun c => ⟨codeToCondition c, rfl⟩, ?_, ?_⟩
  · intro c hc
    unfold codeToCondition
    rw [lookup_eq_none_of_not_mem weatherConditions c hc]
  · exact ⟨rfl, rfl, rfl, rfl, rfl, rfl, rfl, rfl, rfl, rfl, rfl, rfl, rfl, rfl,
      rfl, rfl, rfl, rfl, rfl, rfl, rfl, rfl, rfl, rfl, rfl, rfl, rfl, rfl⟩

/-- Witness for C3 at the concrete off-table code 42. -/
theorem C3_codeToCondition_total_witness : codeToCondition 42 = "unknown" :=
  C3_codeToCondition_total.2.1 42 (by decide)

/-- The reading fetchWeatherData assembles for the Paris invocation and
the sample provider reply. -/
def parisReading : WeatherReading :=
  { location := "Paris"
    temperature := 20
    temperature_unit := "celsius"
    condition := "partly cloudy"
    humidity := 50
    wind_speed := 5
    wind_unit := "kmh"
    wind_direction := 180
    pressure := 1013
    pressure_unit := "hPa"
    visibility := 10
    visibility_unit := "km"
    uv_index := 0
    feels_like := 19
    description := "Current weather in Paris: partly cloudy with temperature of 20°C"
    timestamp := "t" }

/-- Claim C4: on provider success every unit field of the reading
equals the requested unit or its default, and the numeric value stored
next to each unit field is the one converted into that unit. -/
theorem C4_units_match (params : WeatherParams) (resp : ProviderResponse)
    (now : String) (r : WeatherReading) (hok : resp.ok = true)
    (h : fetchWeatherData params resp now = Except.ok r) :
    r.temperature_unit = params.temperature_unit.getD "celsius" ∧
    r.wind_unit = params.wind_unit.getD "kmh" ∧
    r.pressure_unit = params.pressure_unit.getD "hPa" ∧
    r.visibility_unit = params.visibility_unit.getD "km" ∧
    r.temperature = resp.current.temperature_2m ∧
    r.wind_speed = resp.current.wind_speed_10m ∧
    r.pressure = convertPressure resp.current.pressure_msl (params.pressure_unit.getD "hPa") ∧
    r.visibility = convertVisibility resp.current.visibility (params.visibility_unit.getD "km") := by
  simp only [fetchWeatherData, hok, if_true] at h
  injection h with h2
  subst h2
  exact ⟨rfl, rfl, rfl, rfl, rfl, rfl, rfl, rfl⟩

/-- Witness for C4 at the Paris invocation and sample provider reply. -/
theorem C4_units_match_witness :
    parisReading.temperature_unit = parisParams.temperature_unit.getD "celsius" ∧
    parisReading.wind_unit = parisParams.wind_unit.getD "kmh" ∧
    parisReading.pressure_unit = parisParams.pressure_unit.getD "hPa" ∧
    parisReading.visibility_unit = parisParams.visibility_unit.getD "km" ∧
    parisReading.temperature = sampleResp.current.temperature_2m ∧
    parisReading.wind_speed = sampleResp.current.wind_speed_10m ∧
    parisReading.pressure = convertPressure sampleResp.current.pressure_msl (parisParams.pressure_unit.getD "hPa") ∧
    parisReading.visibility = convertVisibility sampleResp.current.visibility (parisParams.visibility_unit.getD "km") :=
  C4_units_match parisParams sampleResp "t" parisReading rfl rfl

/-- Provider reply whose wind direction is out of the interval from 0
to 360. -/
def badDirectionResp : ProviderResponse :=
  { ok := true, reason := none
    current := { sampleCurrent with wind_direction_10m := 400 } }

/-- The reading assembled from badDirectionResp. -/
def badDirectionReading : WeatherReading :=
  { parisReading with wind_direction := 400 }

/-- Counterexample for C8: a provider reply carrying wind direction 400
produces a reading whose wind_direction field is 400, outside the
claimed interval: no normalization happens. -/
theorem C8_counterexample :
    fetchWeatherData parisParams badDirectionResp "t" = Except.ok badDirectionReading ∧
    badDirectionReading.wind_direction = 400 ∧
    ¬ badDirectionReading.wind_direction < 360 :=
  ⟨rfl, rfl, by norm_num [badDirectionReading, parisReading]⟩

/-- Claim C8 amended: the wind direction field of every constructed
WeatherReading is copied unchanged from the provider wind_direction_10m
value; it is not normalized, so it lies in the interval from 0 to 360
only when the provider value does. -/
theorem C8_wind_direction_passthrough (params : WeatherParams)
    (resp : ProviderResponse) (now : String) (r : WeatherReading)
    (hok : resp.ok = true)
    (h : fetchWeatherData params resp now = Except.ok r) :
    r.wind_direction = resp.current.wind_direction_10m := by
  simp only [fetchWeatherData, hok, if_true] at h
  injection h with h2
  subst h2
  rfl

/-- Witness for C8 amended at the out-of-range provider reply. -/
theorem C8_wind_direction_passthrough_witness :
    badDirectionReading.wind_direction = badDirectionResp.current.wind_direction_10m :=
  C8_wind_direction_passthrough parisParams badDirectionResp "t" badDirectionReading rfl rfl

/-- Claim C9: on provider success feels_like is the provider apparent
temperature, uv_index is 0, the description has the stated generated
form, a weather code of 2 yields the condition partly cloudy, and the
Paris invocation with weather code 2 yields a description that starts
with the text naming Paris and partly cloudy. -/
theorem C9_reading_fields (params : WeatherParams) (resp : ProviderResponse)
    (now : String) (r : WeatherReading) (hok : resp.ok = true)
    (h : fetchWeatherData params resp now = Except.ok r) :
    r.feels_like = resp.current.apparent_temperature ∧
    r.uv_index = 0 ∧
    (∃ t, r.description = "Current weather in " ++ params.location_name ++ ": " ++
      r.condition ++ " with temperature of " ++ t ++ "°" ++
      (if params.temperature_unit.getD "celsius" = "celsius" then "C" else "F")) ∧
    (resp.current.weather_code = 2 → r.condition = "partly cloudy") ∧
    (params.location_name = "Paris" → resp.current.weather_code = 2 →
      params.temperature_unit.getD "celsius" = "celsius" →
      ∃ t, r.description =
        "Current weather in Paris: partly cloudy with temperature of " ++ t) := by
  simp only [fetchWeatherData, hok, if_true] at h
  injection h with h2
  subst h2
  refine ⟨rfl, rfl, ⟨toString resp.current.temperature_2m, rfl⟩, ?_, ?_⟩
  · intro hcode
    show codeToCondition resp.current.weather_code = "partly cloudy"
    rw [hcode]
    rfl
  · intro hname hcode hunit
    refine ⟨toString resp.current.temperature_2m ++ "°" ++ "C", ?_⟩
    show "Current weather in " ++ params.location_name ++ ": " ++
      codeToCondition resp.current.weather_code ++ " with temperature of " ++
      toString resp.current.temperature_2m ++ "°" ++
      (if params.temperature_unit.getD "celsius" = "celsius" then "C" else "F") = _
    rw [hname, hcode, hunit]
    rfl

/-- Witness for C9 at the Paris round-trip scenario. -/
theorem C9_reading_fields_witness :
    parisReading.feels_like = sampleResp.current.apparent_temperature ∧
    parisReading.uv_index = 0 ∧
    parisReading.condition = "partly cloudy" ∧
    parisReading.description =
      "Current weather in Paris: partly cloudy" ++ " with temperature of 20°C" :=
  ⟨(C9_reading_fields parisParams sampleResp "t" parisReading rfl rfl).1,
   (C9_reading_fields parisParams sampleResp "t" parisReading rfl rfl).2.1,
   (C9_reading_fields parisParams sampleResp "t" parisReading rfl rfl).2.2.2.1 rfl,
   rfl⟩

/-- Environment whose language-service reply has an empty output array
and no output text. -/
def emptyOutputEnv : Env :=
  { llm := { output := [], output_text := none }
    provider := sampleResp
    structured := Except.ok samplePayload
    now := "t" }

/-- Counterexample for C1: the whitespace-only query consisting of one
space is truthy, so it is not rejected with the 400 validation shape
and the first language-service call is made. -/
theorem C1_counterexample :
    (POST (some " ") emptyOutputEnv).1 = HttpResponse.successMessage fallbackMessage ∧
    (POST (some " ") emptyOutputEnv).1 ≠ HttpResponse.badRequest "Query is required" ∧
    (POST (some " ") emptyOutputEnv).2.llmCalls = 1 :=
  ⟨rfl, by decide, rfl⟩

/-- Claim C1 amended: an absent query and the empty-string query are
rejected with the 400 Query is required shape and no outbound call is
made; the falsiness test does not reject whitespace-only non-empty
queries. -/
theorem C1_falsy_query_rejected (env : Env) :
    POST none env = (HttpResponse.badRequest "Query is required", ⟨0, 0⟩) ∧
    POST (some "") env = (HttpResponse.badRequest "Query is required", ⟨0, 0⟩) :=
  ⟨rfl, rfl⟩

/-- Claim C5: when the first output item is not a get_weather_data
function call (or the output array is empty), the handler returns the
success message shape after exactly one language-service call and zero
weather-provider calls; the message is the output text when that text
is present and non-empty, and the fixed prompt string otherwise. -/
theorem C5_direct_answer (q : String) (env : Env) (hq : q ≠ "")
    (hno : ∀ item rest, env.llm.output = item :: rest → isWeatherToolCall item = false) :
    POST (some q) env =
      (HttpResponse.successMessage (directMessage env.llm.output_text), ⟨1, 0⟩) ∧
    (∀ t, env.llm.output_text = some t → t ≠ "" →
      directMessage env.llm.output_text = t) ∧
    (env.llm.output_text = none → directMessage env.llm.output_text = fallbackMessage) := by
  refine ⟨?_, ?_, ?_⟩
  · simp only [POST]
    rw [if_neg hq]
    cases hout : env.llm.output with
    | nil => rfl
    | cons item rest =>
      simp [hno item rest hout]
  · intro t ht hne
    simp [directMessage, ht, hne]
  · intro ht
    simp [directMessage, ht]

/-- Environment whose language-service reply is a direct text answer. -/
def directEnv : Env :=
  { llm := { output := [], output_text := some "Hello there" }
    provider := sampleResp
    structured := Except.ok samplePayload
    now := "t" }

/-- Witness for C5 at a concrete direct-answer environment. -/
theorem C5_direct_answer_witness :
    POST (some "hi") directEnv =
      (HttpResponse.successMessage "Hello there", ⟨1, 0⟩) :=
  (C5_direct_answer "hi" directEnv (by decide)
    (fun _ _ h => List.noConfusion h)).1

/-- Environment whose weather provider reply is a failure carrying the
reason boom. -/
def failEnv : Env :=
  { llm := { output := [weatherItem], output_text := none }
    provider := { ok := false, reason := some "boom", current := sampleCurrent }
    structured := Except.ok samplePayload
    now := "t" }

/-- Claim C6: when the weather provider reports a non-success status
the handler returns the 500 Failed to fetch weather data shape, the
details string is the fixed prefix followed by the provider reason (or
by Unknown error when the reason is absent), and exactly one provider
call is made, so there is no retry. -/
theorem C6_provider_failure (q : String) (env : Env) (item : OutputItem)
    (rest : List OutputItem) (hq : q ≠ "")
    (hout : env.llm.output = item :: rest)
    (hcall : isWeatherToolCall item = true)
    (hfail : env.provider.ok = false) :
    POST (some q) env =
      (HttpResponse.serverError "Failed to fetch weather data"
        ("Failed to fetch weather data: Weather API error: " ++
          reasonOrUnknown env.provider.reason), ⟨1, 1⟩) ∧
    (∀ s, env.provider.reason = some s → s ≠ "" →
      "Failed to fetch weather data: Weather API error: " ++
        reasonOrUnknown env.provider.reason =
      "Failed to fetch weather data: Weather API error: " ++ s) ∧
    (env.provider.reason = none →
      "Failed to fetch weather data: Weather API error: " ++
        reasonOrUnknown env.provider.reason =
      "Failed to fetch weather data: Weather API error: " ++ "Unknown error") := by
  refine ⟨?_, ?_, ?_⟩
  · simp only [POST]
    rw [if_neg hq]
    simp [hout, hcall, fetchWeatherData, hfail]
  · intro s hs hne
    simp [reasonOrUnknown, hs, hne]
  · intro hn
    simp [reasonOrUnknown, hn]

/-- Witness for C6 at the concrete failing-provider environment. -/
theorem C6_provider_failure_witness :
    POST (some "hi") failEnv =
      (HttpResponse.serverError "Failed to fetch weather data"
        ("Failed to fetch weather data: Weather API error: " ++
          reasonOrUnknown failEnv.provider.reason), ⟨1, 1⟩) :=
  (C6_provider_failure "hi" failEnv weatherItem [] (by decide) rfl rfl rfl).1

/-- Environment in which the provider succeeds but the second
structuring call fails schema validation with a chosen message. -/
def schemaFailEnv : Env :=
  { llm := { output := [weatherItem], output_text := none }
    provider := sampleResp
    structured := Except.error "Failed to fetch weather data: Weather API error: boom"
    now := "t" }

/-- Counterexample for C7: a schema-validation failure on the second
call and a weather-provider failure produce literally identical
serverError responses (same error field, same details, same status),
so the two failure kinds are merged into one shape, not
distinguishable. -/
theorem C7_counterexample :
    schemaFailEnv.provider.ok = true ∧
    failEnv.provider.ok = false ∧
    (POST (some "hi") schemaFailEnv).1 =
      HttpResponse.serverError "Failed to fetch weather data"
        "Failed to fetch weather data: Weather API error: boom" ∧
    (POST (some "hi") failEnv).1 =
      HttpResponse.serverError "Failed to fetch weather data"
        "Failed to fetch weather data: Weather API error: boom" ∧
    (POST (some "hi") schemaFailEnv).1 = (POST (some "hi") failEnv).1 :=
  ⟨rfl, rfl, rfl, rfl, rfl⟩

/-- Claim C7 amended: a schema-validation failure on the second
structuring call is caught by the same handler as weather fetch
failures and surfaces with the identical 500 Failed to fetch weather
data shape carrying the failure message; the two failure kinds are not
distinguishable by response shape. -/
theorem C7_schema_error_shape (q : String) (env : Env) (item : OutputItem)
    (rest : List OutputItem) (m : String) (hq : q ≠ "")
    (hout : env.llm.output = item :: rest)
    (hcall : isWeatherToolCall item = true)
    (hok : env.provider.ok = true)
    (hm : env.structured = Except.error m) :
    POST (some q) env =
      (HttpResponse.serverError "Failed to fetch weather data" m, ⟨2, 1⟩) := by
  simp only [POST]
  rw [if_neg hq]
  simp [hout, hcall, fetchWeatherData, hok, hm]

/-- Witness for C7 amended at the concrete schema-failure
environment. -/
theorem C7_schema_error_shape_witness :
    POST (some "hi") schemaFailEnv =
      (HttpResponse.serverError "Failed to fetch weather data"
        "Failed to fetch weather data: Weather API error: boom", ⟨2, 1⟩) :=
  C7_schema_error_shape "hi" schemaFailEnv weatherItem []
    "Failed to fetch weather data: Weather API error: boom"
    (by decide) rfl rfl rfl rfl

/-- Claim C10: only the head of the output array is inspected; whenever
the head is absent or is not a get_weather_data function call, the
handler takes the direct-answer branch and makes no weather-provider
call, whatever appears at later positions. -/
theorem C10_head_only (q : String) (env : Env) (hq : q ≠ "")
    (hhead : ∀ item, env.llm.output.head? = some item → isWeatherToolCall item = false) :
    (POST (some q) env).1 = HttpResponse.successMessage (directMessage env.llm.output_text) ∧
    (POST (some q) env).2.weatherCalls = 0 := by
  simp only [POST]
  rw [if_neg hq]
  cases hout : env.llm.output with
  | nil => exact ⟨rfl, rfl⟩
  | cons item rest =>
    have hfalse : isWeatherToolCall item = false := by
      apply hhead
      rw [hout]
      rfl
    simp [hfalse]

/-- Environment whose get_weather_data call sits at index 1, behind a
plain message item at index 0. -/
def secondPositionEnv : Env :=
  { llm := { output := [messageItem, weatherItem], output_text := none }
    provider := sampleResp
    structured := Except.ok samplePayload
    now := "t" }

/-- Witness for C10: with the tool call at index 1 the handler still
takes the direct-answer branch and never calls the weather provider. -/
theorem C10_head_only_witness :
    (POST (some "hi") secondPositionEnv).1 =
      HttpResponse.successMessage (directMessage secondPositionEnv.llm.output_text) ∧
    (POST (some "hi") secondPositionEnv).2.weatherCalls = 0 :=
  C10_head_only "hi" secondPositionEnv (by decide)
    (fun item h => by injection h with h2; rw [← h2]; rfl)

end WeatherApp
